import Mathlib

/-!
Verification of the ZENIBO cash-book core: filter engine, balance
accumulator, CSV export formatters, coupon validation, and token
encode/verify, shallowly embedded from the repository source
(`public/static/app.js`, `src/routes/coupons.ts`, `src/utils/auth.ts`).
-/

namespace Zenibo

/-! ## String primitives

JS `String.prototype.includes` is modelled by an explicit substring
search over the character list, and JS lexicographic string comparison
(`<=` / `>=` on strings) by `listLe` over characters. -/

/-- Boolean test that `p` is a leading segment of `l`. -/
def isPre : List Char → List Char → Bool
  | [], _ => true
  | _ :: _, [] => false
  | p :: ps, c :: cs => p == c && isPre ps cs

/-- Boolean substring search: does `p` occur contiguously inside `l`? -/
def hasSub (p : List Char) : List Char → Bool
  | [] => isPre p []
  | c :: rest => isPre p (c :: rest) || hasSub p rest

/-- JS `s.includes(pat)`. -/
def strIncludes (s pat : String) : Bool := hasSub pat.data s.data

/-- Lexicographic `≤` on character lists (JS string comparison). -/
def listLe : List Char → List Char → Bool
  | [], _ => true
  | _ :: _, [] => false
  | a :: as, b :: bs => a < b || (a == b && listLe as bs)

/-- JS string `a <= b`. -/
def strLe (a b : String) : Bool := listLe a.data b.data

/-- JS `s.toLowerCase()` (character-wise lowercasing). -/
def toLowerStr (s : String) : String := ⟨s.data.map Char.toLower⟩

/-- JS `s.trim()`: strip leading and trailing whitespace. -/
def trimStr (s : String) : String :=
  ⟨((s.data.dropWhile Char.isWhitespace).reverse.dropWhile Char.isWhitespace).reverse⟩

theorem isPre_iff (p l : List Char) : isPre p l = true ↔ ∃ suf, l = p ++ suf := by
  induction p generalizing l with
  | nil => simp [isPre]
  | cons c cs ih =>
    cases l with
    | nil => simp [isPre]
    | cons d ds =>
      simp only [isPre, Bool.and_eq_true, beq_iff_eq, ih, List.cons_append,
        List.cons.injEq]
      constructor
      · rintro ⟨rfl, suf, rfl⟩; exact ⟨suf, rfl, rfl⟩
      · rintro ⟨suf, rfl, rfl⟩; exact ⟨rfl, suf, rfl⟩

theorem hasSub_iff (p l : List Char) :
    hasSub p l = true ↔ ∃ pre suf, l = pre ++ p ++ suf := by
  induction l with
  | nil =>
    simp only [hasSub, isPre_iff]
    constructor
    · rintro ⟨suf, h⟩
      exact ⟨[], suf, by simpa using h⟩
    · rintro ⟨pre, suf, h⟩
      have h1 := List.append_eq_nil.mp h.symm
      have h2 := List.append_eq_nil.mp h1.1
      exact ⟨[], by simp [h2.2]⟩
  | cons c rest ih =>
    simp only [hasSub, Bool.or_eq_true, isPre_iff, ih]
    constructor
    · rintro (⟨suf, h⟩ | ⟨pre, suf, h⟩)
      · exact ⟨[], suf, by simpa using h⟩
      · exact ⟨c :: pre, suf, by simp [h]⟩
    · rintro ⟨pre, suf, h⟩
      cases pre with
      | nil => exact Or.inl ⟨suf, by simpa using h⟩
      | cons x xs =>
        right
        refine ⟨xs, suf, ?_⟩
        have := h
        simp only [List.cons_append, List.cons.injEq] at this
        exact this.2

/-! ## Data model -/

/-- Transaction type tag (`t.type` is the string `'income'` or `'expense'`
in the source). -/
inductive TxType where
  | income
  | expense
deriving DecidableEq, Repr

/-- One ledger transaction, as held in `this.transactions` /
`getCurrentTransactions()` in `app.js`. Amounts are non-negative integers
in yen. -/
structure Tx where
  date : String
  type : TxType
  description : String
  client : String
  amount : Nat
  account_subject_id : Option Nat := none
  sub_account_id : Option Nat := none
  taxType : String := ""
deriving DecidableEq, Repr

/-! ## Filter Engine (`renderTransactions`, app.js lines 616–675)

Each DOM input is modelled as an `Option` (or a raw `String` for the
keyword box); `none` / the empty string is a falsy, unsupplied option. -/

/-- The six filter inputs read at the top of `renderTransactions`. -/
structure FilterSpec where
  startDate : Option String := none
  endDate : Option String := none
  keyword : String := ""
  minAmount : Option Nat := none
  maxAmount : Option Nat := none
  accountSubjectId : Option Nat := none
deriving DecidableEq, Repr

/-- Date-range stage: `if (startDate && endDate) … else if (startDate) …
else if (endDate) …`. -/
def applyDateFilter (fs : FilterSpec) (txs : List Tx) : List Tx :=
  match fs.startDate, fs.endDate with
  | some s, some e => txs.filter fun t => strLe s t.date && strLe t.date e
  | some s, none => txs.filter fun t => strLe s t.date
  | none, some e => txs.filter fun t => strLe t.date e
  | none, none => txs

/-- Keyword stage: the raw box value is lowercased and trimmed; an empty
result applies no filter, otherwise a case-insensitive substring match
against description OR client. -/
def applyKeywordFilter (fs : FilterSpec) (txs : List Tx) : List Tx :=
  let kw := trimStr (toLowerStr fs.keyword)
  if kw == "" then txs
  else txs.filter fun t =>
    strIncludes (toLowerStr t.description) kw || strIncludes (toLowerStr t.client) kw

/-- Amount predicate with the source's defaults (`min = 0`,
`max = Infinity`). -/
def amountPredB (mi ma : Option Nat) (t : Tx) : Bool :=
  decide (mi.getD 0 ≤ t.amount) &&
    (match ma with | none => true | some m => decide (t.amount ≤ m))

/-- Amount stage: `if (minAmount || maxAmount)` then one filter with both
defaulted bounds. -/
def applyAmountFilter (fs : FilterSpec) (txs : List Tx) : List Tx :=
  match fs.minAmount, fs.maxAmount with
  | none, none => txs
  | mi, ma => txs.filter fun t => amountPredB mi ma t

/-- Account-subject stage: exact id match when supplied. -/
def applySubjectFilter (fs : FilterSpec) (txs : List Tx) : List Tx :=
  match fs.accountSubjectId with
  | none => txs
  | some i => txs.filter fun t => t.account_subject_id == some i

/-- The Filter Engine: the four stages in source order (date, keyword,
amount, account subject). -/
def filterEngine (fs : FilterSpec) (txs : List Tx) : List Tx :=
  applySubjectFilter fs (applyAmountFilter fs (applyKeywordFilter fs (applyDateFilter fs txs)))

/-- Specification-side predicate: the conjunction of all supplied
predicates of §4.1 — inclusive date bounds, case-insensitive keyword over
description or counterparty, inclusive amount bounds defaulting to 0 and
+infinity, exact account-subject match; an unsupplied option imposes
nothing. -/
def matchesAll (fs : FilterSpec) (t : Tx) : Bool :=
  (match fs.startDate with | none => true | some s => strLe s t.date) &&
  (match fs.endDate with | none => true | some e => strLe t.date e) &&
  (trimStr (toLowerStr fs.keyword) == "" ||
    (strIncludes (toLowerStr t.description) (trimStr (toLowerStr fs.keyword)) ||
     strIncludes (toLowerStr t.client) (trimStr (toLowerStr fs.keyword)))) &&
  decide (fs.minAmount.getD 0 ≤ t.amount) &&
  (match fs.maxAmount with | none => true | some m => decide (t.amount ≤ m)) &&
  (match fs.accountSubjectId with | none => true | some i => t.account_subject_id == some i)

/-- A filter specification with no option supplied. -/
def noFilter : FilterSpec := ⟨none, none, "", none, none, none⟩

/-- Date-stage predicate. -/
def datePredB (fs : FilterSpec) (t : Tx) : Bool :=
  (match fs.startDate with | none => true | some s => strLe s t.date) &&
  (match fs.endDate with | none => true | some e => strLe t.date e)

/-- Keyword-stage predicate. -/
def keywordPredB (fs : FilterSpec) (t : Tx) : Bool :=
  trimStr (toLowerStr fs.keyword) == "" ||
    (strIncludes (toLowerStr t.description) (trimStr (toLowerStr fs.keyword)) ||
     strIncludes (toLowerStr t.client) (trimStr (toLowerStr fs.keyword)))

/-- Subject-stage predicate. -/
def subjectPredB (fs : FilterSpec) (t : Tx) : Bool :=
  match fs.accountSubjectId with | none => true | some i => t.account_subject_id == some i

theorem applyDateFilter_eq (fs : FilterSpec) (txs : List Tx) :
    applyDateFilter fs txs = txs.filter fun t => datePredB fs t := by
  rcases fs with ⟨sd, ed, kw, mi, ma, si⟩
  cases sd <;> cases ed <;> simp [applyDateFilter, datePredB]

theorem applyKeywordFilter_eq (fs : FilterSpec) (txs : List Tx) :
    applyKeywordFilter fs txs = txs.filter fun t => keywordPredB fs t := by
  unfold applyKeywordFilter
  cases h : trimStr (toLowerStr fs.keyword) == "" <;> simp [h, keywordPredB]

theorem applyAmountFilter_eq (fs : FilterSpec) (txs : List Tx) :
    applyAmountFilter fs txs = txs.filter fun t => amountPredB fs.minAmount fs.maxAmount t := by
  rcases fs with ⟨sd, ed, kw, mi, ma, si⟩
  cases mi <;> cases ma <;> simp [applyAmountFilter, amountPredB, Nat.zero_le]

theorem applySubjectFilter_eq (fs : FilterSpec) (txs : List Tx) :
    applySubjectFilter fs txs = txs.filter fun t => subjectPredB fs t := by
  rcases fs with ⟨sd, ed, kw, mi, ma, si⟩
  cases si <;> simp [applySubjectFilter, subjectPredB]

theorem filterEngine_eq_filter (fs : FilterSpec) (txs : List Tx) :
    filterEngine fs txs = txs.filter (matchesAll fs) := by
  unfold filterEngine
  rw [applyDateFilter_eq, applyKeywordFilter_eq, applyAmountFilter_eq,
    applySubjectFilter_eq, List.filter_filter, List.filter_filter, List.filter_filter]
  refine List.filter_congr fun t _ => ?_
  simp only [matchesAll, datePredB, keywordPredB, amountPredB, subjectPredB,
    Bool.and_assoc, Bool.and_comm, Bool.and_left_comm]

/-- C3: the Filter Engine returns exactly the subsequence of transactions
satisfying the conjunction of the supplied predicates (inclusive date
bounds, case-insensitive keyword over description or counterparty,
inclusive amount bounds defaulting to 0 and +infinity, exact
account-subject match), preserving the original relative order; an
unsupplied option applies no predicate, and with no options set the
output equals the input. -/
theorem filter_engine_correct (fs : FilterSpec) (txs : List Tx) :
    filterEngine fs txs = txs.filter (matchesAll fs) ∧
    (filterEngine fs txs).Sublist txs ∧
    filterEngine noFilter txs = txs := by
  refine ⟨filterEngine_eq_filter fs txs, ?_, ?_⟩
  · rw [filterEngine_eq_filter]; exact List.filter_sublist txs
  · rfl

/-! ## Balance Accumulator (`renderTransactions` loop, app.js 689–699,
and `updateTotals`, app.js 746–758) -/

/-- The three running quantities displayed by `renderTransactions` /
`updateTotals`: final balance, total income, total expense. -/
structure Totals where
  balance : Int
  totalIncome : Nat
  totalExpense : Nat
deriving DecidableEq, Repr

/-- One iteration of the `renderTransactions` accumulation loop:
`income`/`expense` are the amount or 0 depending on the type, then
`balance += income - expense`, `totalIncome += income`,
`totalExpense += expense`. -/
def renderStep (s : Totals) (t : Tx) : Totals :=
  let income : Nat := match t.type with | .income => t.amount | .expense => 0
  let expense : Nat := match t.type with | .income => 0 | .expense => t.amount
  ⟨s.balance + (income : Int) - (expense : Int), s.totalIncome + income, s.totalExpense + expense⟩

/-- The full accumulation: balance starts at `settings.openingBalance`,
totals at 0. -/
def renderAccumulate (opening : Int) (txs : List Tx) : Totals :=
  txs.foldl renderStep ⟨opening, 0, 0⟩

/-- Sum of the amounts of the income transactions (the computation of
`updateTotals`: filter by type, then reduce `+` over amounts). -/
def sumIncome (txs : List Tx) : Nat :=
  ((txs.filter fun t => t.type == TxType.income).map Tx.amount).sum

/-- Sum of the amounts of the expense transactions. -/
def sumExpense (txs : List Tx) : Nat :=
  ((txs.filter fun t => t.type == TxType.expense).map Tx.amount).sum

/-- The source's `updateTotals(transactions, finalBalance)`: displays the two sums of
the passed list and the passed final balance. -/
def updateTotals (txs : List Tx) (finalBalance : Int) : Totals :=
  ⟨finalBalance, sumIncome txs, sumExpense txs⟩

/-- The displayed result of `renderTransactions`: filter, then — if the
result is empty — `updateTotals([], 0)`; otherwise run the balance loop
from the opening balance and call `updateTotals(filtered, balance)`. -/
def renderTransactionsResult (fs : FilterSpec) (opening : Int) (txs : List Tx) : Totals :=
  let filtered := filterEngine fs txs
  if filtered.isEmpty then updateTotals [] 0
  else updateTotals filtered (renderAccumulate opening filtered).balance

theorem renderAccumulate_foldl (txs : List Tx) :
    ∀ s : Totals, txs.foldl renderStep s =
      ⟨s.balance + (sumIncome txs : Int) - (sumExpense txs : Int),
       s.totalIncome + sumIncome txs, s.totalExpense + sumExpense txs⟩ := by
  induction txs with
  | nil => intro s; simp [sumIncome, sumExpense]
  | cons t ts ih =>
    intro s
    rw [List.foldl_cons, ih]
    cases s with
    | mk b ti te =>
      cases h : t.type <;>
        simp [renderStep, sumIncome, sumExpense, List.filter_cons, h, Totals.mk.injEq] <;>
        omega

/-! ## Tax-code label tables (app.js 1052–1059, 1136–1167, 1350–1359) -/

/-- The inline `taxLabels` table of `generateBasicCSV` (keys `tax10`,
`tax8`, `nontax`, `taxfree`, `notaxable`; missing key gives `''`). -/
def basicTaxLabel : String → String
  | "tax10" => "課税10%"
  | "tax8" => "軽減税率8%"
  | "nontax" => "非課税"
  | "taxfree" => "免税"
  | "notaxable" => "不課税"
  | _ => ""

/-- Source function `getMFTaxCode`. -/
def getMFTaxCode : String → String
  | "taxable-10" => "課税売上10%"
  | "taxable-8" => "課税売上8%"
  | "non-taxable" => "非課税売上"
  | "tax-exempt" => "免税売上"
  | "out-of-scope" => "対象外"
  | _ => "課税売上10%"

/-- Source function `getFreeeTaxCode`. -/
def getFreeeTaxCode : String → String
  | "taxable-10" => "課税売上10%"
  | "taxable-8" => "軽減税率8%"
  | "non-taxable" => "非課税売上"
  | "tax-exempt" => "免税売上"
  | "out-of-scope" => "対象外"
  | _ => "課税売上10%"

/-- Source function `getYayoiTaxCode`. -/
def getYayoiTaxCode : String → String
  | "taxable-10" => "課売10%"
  | "taxable-8" => "課売8%"
  | "non-taxable" => "非課税"
  | "tax-exempt" => "免税"
  | "out-of-scope" => "対象外"
  | _ => "課売10%"

/-- Source function `getTaxLabel` (display label in the transaction table; unrecognized
codes are echoed back). -/
def getTaxLabel : String → String
  | "taxable-10" => "課税10%"
  | "taxable-8" => "軽減8%"
  | "non-taxable" => "非課税"
  | "tax-exempt" => "免税"
  | "out-of-scope" => "不課税"
  | t => t

/-! ## CSV export formatters (app.js 824–899, 901–1027, 1029–1126)

Rows are built as string concatenations exactly mirroring the template
literals of the source; `quoteWrap s` renders the template fragment
`"..."` around an interpolated field. -/

/-- The JS `s.replace(/"/g, '""')` quote-doubling, character by
character. -/
def escQuotesList : List Char → List Char
  | [] => []
  | c :: cs => if c = '"' then '"' :: '"' :: escQuotesList cs else c :: escQuotesList cs

/-- Quote-doubling on strings. -/
def escQuotes (s : String) : String := ⟨escQuotesList s.data⟩

/-- Surround a field with double quotes, as the templates `"${field}"`
do. -/
def quoteWrap (s : String) : String := "\"" ++ s ++ "\""

/-- Lookup of account-subject / sub-account names out of
`this.accountSubjects` (external to the formatter; abstracted as
functions of the transaction). -/
structure NameEnv where
  subjectName : Tx → String
  subAccountName : Tx → String

/-- Row label `'入金'` / `'出金'` of the basic dialect. -/
def typeLabel (t : Tx) : String :=
  match t.type with | .income => "入金" | .expense => "出金"

/-- Basic-dialect income column: the amount if the type is income, else
blank. -/
def incomeField (t : Tx) : String :=
  match t.type with | .income => toString t.amount | .expense => ""

/-- Basic-dialect expense column: the amount if the type is expense, else
blank. -/
def expenseField (t : Tx) : String :=
  match t.type with | .income => "" | .expense => toString t.amount

/-- Balance after applying one transaction (`balance += amount` on
income, `balance -= amount` on expense). -/
def basicNext (b : Int) (t : Tx) : Int :=
  match t.type with | .income => b + t.amount | .expense => b - t.amount

/-- One row of `generateBasicCSV` (template at app.js 1061); `b` is the
running balance after this transaction. -/
def basicRow (env : NameEnv) (t : Tx) (b : Int) : String :=
  t.date ++ "," ++ quoteWrap (typeLabel t) ++ "," ++ quoteWrap (escQuotes t.description) ++
    "," ++ quoteWrap (escQuotes t.client) ++ "," ++ quoteWrap (env.subjectName t) ++ "," ++
    quoteWrap (env.subAccountName t) ++ "," ++ incomeField t ++ "," ++ expenseField t ++
    "," ++ toString b ++ "," ++ quoteWrap (basicTaxLabel t.taxType) ++ "\n"

/-- Header row of the basic dialect. -/
def basicHeader : String :=
  "取引日,区分,取引内容,取引先,勘定科目,補助科目,入金,出金,残高,消費税区分\n"

/-- The row block of `generateBasicCSV`, threading the running balance;
also returns the final value of the `balance` loop variable. -/
def basicRows (env : NameEnv) : Int → List Tx → String × Int
  | b, [] => ("", b)
  | b, t :: ts =>
    (basicRow env t (basicNext b t) ++ (basicRows env (basicNext b t) ts).1,
     (basicRows env (basicNext b t) ts).2)

/-- Source function `generateBasicCSV`: header plus rows; the second component is the
final running balance. -/
def generateBasicCSV (env : NameEnv) (opening : Int) (txs : List Tx) : String × Int :=
  (basicHeader ++ (basicRows env opening txs).1, (basicRows env opening txs).2)

/-- One row of `generateMFCloudCSV` (app.js 1079 / 1082); `idx` is the
1-based transaction number. -/
def mfRow (t : Tx) (idx : Nat) : String :=
  match t.type with
  | .income =>
      toString idx ++ "," ++ t.date ++ ",現金,,,," ++ toString t.amount ++ ",,売上高,,,," ++
        toString t.amount ++ ",," ++ quoteWrap (escQuotes t.description) ++ "," ++
        quoteWrap (escQuotes t.client) ++ ",,,,\n"
  | .expense =>
      toString idx ++ "," ++ t.date ++ ",経費,,,," ++ toString t.amount ++ ",,現金,,,," ++
        toString t.amount ++ ",," ++ quoteWrap (escQuotes t.description) ++ "," ++
        quoteWrap (escQuotes t.client) ++ ",,,,\n"

/-- Header row of the MF dialect. -/
def mfHeader : String :=
  "取引No,取引日,借方勘定科目,借方補助科目,借方部門,借方税区分,借方金額,借方税額,貸方勘定科目,貸方補助科目,貸方部門,貸方税区分,貸方金額,貸方税額,摘要,取引先,品目,メモタグ,期日\n"

/-- MF rows with the sequential `index + 1` numbering. -/
def mfRows : Nat → List Tx → String
  | _, [] => ""
  | i, t :: ts => mfRow t i ++ mfRows (i + 1) ts

/-- Source function `generateMFCloudCSV`. -/
def generateMFCloudCSV (txs : List Tx) : String := mfHeader ++ mfRows 1 txs

/-- Label `'収入'` / `'支出'` of the freee dialect. -/
def freeeType (t : Tx) : String :=
  match t.type with | .income => "収入" | .expense => "支出"

/-- Account label `'売上高'` / `'経費'` of the freee dialect. -/
def freeeAccount (t : Tx) : String :=
  match t.type with | .income => "売上高" | .expense => "経費"

/-- One row of `generateFreeeCSV` (app.js 1101): note that the client is
quote-doubled but interpolated without surrounding quotes. -/
def freeeRow (t : Tx) : String :=
  freeeType t ++ ",," ++ t.date ++ ",," ++ escQuotes t.client ++ "," ++ freeeAccount t ++
    "," ++ getFreeeTaxCode t.taxType ++ "," ++ toString t.amount ++ ",," ++
    quoteWrap (escQuotes t.description) ++ ",,,,,,\n"

/-- Header row of the freee dialect. -/
def freeeHeader : String :=
  "収支区分,管理番号,発生日,決済期日,取引先,勘定科目,税区分,金額,税額,備考,品目,部門,メモタグ,セグメント1,セグメント2,セグメント3\n"

/-- Source function `generateFreeeCSV`. -/
def generateFreeeCSV (txs : List Tx) : String :=
  freeeHeader ++ String.join (txs.map freeeRow)

/-- One row of `generateYayoiCSV` (app.js 1118 / 1121). -/
def yayoiRow (t : Tx) (idx : Nat) : String :=
  match t.type with
  | .income =>
      toString idx ++ ",," ++ t.date ++ ",現金,,," ++ getYayoiTaxCode t.taxType ++ "," ++
        toString t.amount ++ ",,売上高,,," ++ getYayoiTaxCode t.taxType ++ "," ++
        toString t.amount ++ ",," ++ quoteWrap (escQuotes t.description) ++ ",,,,,,,,\n"
  | .expense =>
      toString idx ++ ",," ++ t.date ++ ",経費,,," ++ getYayoiTaxCode t.taxType ++ "," ++
        toString t.amount ++ ",,現金,,," ++ getYayoiTaxCode t.taxType ++ "," ++
        toString t.amount ++ ",," ++ quoteWrap (escQuotes t.description) ++ ",,,,,,,,\n"

/-- Header row of the yayoi dialect. -/
def yayoiHeader : String :=
  "伝票No,決算,取引日付,借方勘定科目,借方補助科目,借方部門,借方税区分,借方金額,借方税額,貸方勘定科目,貸方補助科目,貸方部門,貸方税区分,貸方金額,貸方税額,摘要,期日,証憑番号,入力マシン,入力ユーザ,入力アプリ,入力会社,入力日付\n"

/-- Yayoi rows with the sequential `index + 1` numbering. -/
def yayoiRows : Nat → List Tx → String
  | _, [] => ""
  | i, t :: ts => yayoiRow t i ++ yayoiRows (i + 1) ts

/-- Source function `generateYayoiCSV`. -/
def generateYayoiCSV (txs : List Tx) : String := yayoiHeader ++ yayoiRows 1 txs

/-- The format actually used by `exportToCSV`: `'basic'` for the free
plan, otherwise `book.settings.exportFormat || 'mf'`. -/
def selectFormat (plan : String) (exportFormat : Option String) : String :=
  if plan == "basic" || plan == "professional" then exportFormat.getD "mf" else "basic"

/-- Dispatch on the selected format (the `if`/`switch` of `exportToCSV`,
app.js 857–873). -/
def dialectCSV (env : NameEnv) (opening : Int) (format : String) (txs : List Tx) : String :=
  if format == "basic" then (generateBasicCSV env opening txs).1
  else if format == "mf" then generateMFCloudCSV txs
  else if format == "freee" then generateFreeeCSV txs
  else if format == "yayoi" then generateYayoiCSV txs
  else generateMFCloudCSV txs

/-- The month-range filter of the closing/export paths:
`t.date.substring(0, 7)` compared inclusively with the `YYYY-MM`
bounds. -/
def monthFilter (startMonth endMonth : String) (txs : List Tx) : List Tx :=
  txs.filter fun t =>
    listLe startMonth.data (t.date.data.take 7) && listLe (t.date.data.take 7) endMonth.data

/-- Source function `exportToCSV` (app.js 824–899): filter to the requested period; if
empty, alert `指定された期間の取引データがありません` and produce nothing
(`none`); otherwise the payload is the UTF-8 BOM followed by the selected
dialect's CSV. -/
def exportToCSV (env : NameEnv) (plan : String) (exportFormat : Option String)
    (opening : Int) (startMonth endMonth : String) (txs : List Tx) : Option String :=
  let filtered := monthFilter startMonth endMonth txs
  if filtered.isEmpty then none
  else some ("\uFEFF" ++ dialectCSV env opening (selectFormat plan exportFormat) filtered)

/-- The CSV attachment built by `sendMonthlyClosing` (app.js 975–985):
same period filter and empty-period alert, format
`book.settings.exportFormat || 'mf'`, and no BOM prefix. -/
def monthlyClosingCSV (env : NameEnv) (opening : Int) (exportFormat : Option String)
    (startMonth endMonth : String) (txs : List Tx) : Option String :=
  let filtered := monthFilter startMonth endMonth txs
  if filtered.isEmpty then none
  else
    let format := exportFormat.getD "mf"
    some (if format == "mf" then generateMFCloudCSV filtered
      else if format == "freee" then generateFreeeCSV filtered
      else if format == "yayoi" then generateYayoiCSV filtered
      else (generateBasicCSV env opening filtered).1)

/-! ## Coupon validation (`src/routes/coupons.ts`, POST /validate)

Times (`datetime('now')`, `valid_from`, `valid_until`) are modelled as
naturals with the store's ordering. -/

/-- One row of the `coupons` table (the columns the validation query
reads). -/
structure Coupon where
  code : String
  is_active : Bool
  valid_from : Option Nat := none
  valid_until : Option Nat := none
  max_redemptions : Option Nat := none
  redemption_count : Nat := 0
  plan_restriction : Option String := none
  discount_type : String := ""
  discount_value : Nat := 0
deriving DecidableEq, Repr

/-- One row of the `coupon_redemptions` table. -/
structure Redemption where
  coupon_id : Nat
  user_id : Nat
  redeemed_at : Nat
deriving DecidableEq, Repr

/-- The stored coupon state read and (potentially) written by the coupon
routes. -/
structure CouponState where
  coupons : List Coupon
  redemptions : List Redemption
deriving DecidableEq, Repr

/-- The WHERE clause of the validation query: `code = ? AND is_active = 1
AND (valid_from IS NULL OR valid_from <= now) AND (valid_until IS NULL OR
valid_until >= now) AND (max_redemptions IS NULL OR redemption_count <
max_redemptions) AND (plan_restriction IS NULL OR plan_restriction =
?)`. -/
def couponMatches (c : Coupon) (code plan : String) (now : Nat) : Bool :=
  c.code == code && c.is_active &&
  (match c.valid_from with | none => true | some vf => decide (vf ≤ now)) &&
  (match c.valid_until with | none => true | some vu => decide (now ≤ vu)) &&
  (match c.max_redemptions with | none => true | some m => decide (c.redemption_count < m)) &&
  (match c.plan_restriction with | none => true | some p => p == plan)

/-- The `POST /api/coupons/validate` handler: a single SELECT returning
the first matching row (`some` = HTTP 200 `valid: true`, `none` = HTTP
400 `Invalid or expired coupon`), paired with the store state after the
request. -/
def validateHandler (s : CouponState) (code plan : String) (now : Nat) :
    Option Coupon × CouponState :=
  (s.coupons.find? fun c => couponMatches c code plan now, s)

/-- Runs `n` successive validation requests for the same code/plan, each one
running against the state left by the previous request. -/
def validateRepeat (s : CouponState) (code plan : String) (now : Nat) :
    Nat → List (Option Coupon)
  | 0 => []
  | n + 1 =>
    (validateHandler s code plan now).1 ::
      validateRepeat (validateHandler s code plan now).2 code plan now n

/-- Specification-side usability predicate of §3: active, within the
validity window when bounds are set, strictly under the redemption cap
when a cap is set, and matching the target plan when restricted. -/
def couponUsable (c : Coupon) (plan : String) (now : Nat) : Prop :=
  c.is_active = true ∧
  (∀ vf, c.valid_from = some vf → vf ≤ now) ∧
  (∀ vu, c.valid_until = some vu → now ≤ vu) ∧
  (∀ m, c.max_redemptions = some m → c.redemption_count < m) ∧
  (∀ p, c.plan_restriction = some p → p = plan)

theorem couponMatches_iff (c : Coupon) (code plan : String) (now : Nat) :
    couponMatches c code plan now = true ↔ c.code = code ∧ couponUsable c plan now := by
  unfold couponMatches couponUsable
  cases c.valid_from <;> cases c.valid_until <;> cases c.max_redemptions <;>
    cases c.plan_restriction <;>
    simp [and_assoc]

/-! ## Token encode / verify (`src/utils/auth.ts`)

`generateToken` base64-encodes the JSON object `{userId, exp}`; base64
and JSON round-trip losslessly, so a token is modelled by its decoded
payload, with `none` standing for any malformed token (the `catch`
branch of `verifyToken`). Times are Unix seconds. -/

/-- The decoded `{userId, exp}` payload. -/
structure TokenPayload where
  userId : Nat
  exp : Nat
deriving DecidableEq, Repr

/-- Source function `generateToken(userId)` at issuance time `now` (seconds):
`exp = now + 60*60*24*30`. -/
def generateToken (userId : Nat) (now : Nat) : TokenPayload :=
  ⟨userId, now + 60 * 60 * 24 * 30⟩

/-- Source function `verifyToken` at verification time `now`: `null` for malformed
tokens, `null` if `payload.exp < now`, otherwise the embedded `userId` —
with no signature to check. -/
def verifyToken (tok : Option TokenPayload) (now : Nat) : Option Nat :=
  match tok with
  | none => none
  | some p => if p.exp < now then none else some p.userId

/-! ## Helper lemmas -/

/-- Predicate that `s` occurs contiguously inside `row`. -/
def occursIn (s row : String) : Prop :=
  ∃ pre suf : List Char, row.data = pre ++ s.data ++ suf

theorem occursIn_self_right (a b : String) : occursIn b (a ++ b) :=
  ⟨a.data, [], by simp⟩

theorem occursIn_extend {s r : String} (a : String) (h : occursIn s r) :
    occursIn s (r ++ a) := by
  obtain ⟨pre, suf, hh⟩ := h
  exact ⟨pre, suf ++ a.data, by simp [hh]⟩

theorem occursIn_iff_hasSub (s row : String) :
    occursIn s row ↔ hasSub s.data row.data = true := by
  rw [hasSub_iff]
  constructor
  · rintro ⟨pre, suf, h⟩; exact ⟨pre, suf, h⟩
  · rintro ⟨pre, suf, h⟩; exact ⟨pre, suf, h⟩

theorem head?_append_of_head? {l₁ : List Char} (l₂ : List Char) {c : Char}
    (h : l₁.head? = some c) : (l₁ ++ l₂).head? = some c := by
  cases l₁ with
  | nil => simp at h
  | cons a as => simpa using h

theorem basicRows_balance (env : NameEnv) (txs : List Tx) :
    ∀ b : Int, (basicRows env b txs).2 = b + (sumIncome txs : Int) - (sumExpense txs : Int) := by
  induction txs with
  | nil => intro b; simp [basicRows, sumIncome, sumExpense]
  | cons t ts ih =>
    intro b
    cases h : t.type <;>
      simp [basicRows, basicNext, ih, sumIncome, sumExpense, List.filter_cons, h] <;>
      omega

/-! ## Claim theorems -/

/-- C1: the Balance Accumulator, as run by `renderTransactions` and
`generateBasicCSV`, satisfies `finalBalance = openingBalance +
sum(income amounts) - sum(expense amounts)` with `totalIncome` and
`totalExpense` equal to the two sums; each income transaction adds its
amount to the running balance, each expense transaction subtracts it,
with no clamping of negative balances. -/
theorem balance_accumulator_invariant :
    (∀ (opening : Int) (txs : List Tx),
      renderAccumulate opening txs =
        ⟨opening + (sumIncome txs : Int) - (sumExpense txs : Int),
         sumIncome txs, sumExpense txs⟩) ∧
    (∀ (env : NameEnv) (opening : Int) (txs : List Tx),
      (generateBasicCSV env opening txs).2 =
        opening + (sumIncome txs : Int) - (sumExpense txs : Int)) ∧
    (∀ (s : Totals) (t : Tx), t.type = TxType.income →
      (renderStep s t).balance = s.balance + t.amount ∧
      (renderStep s t).totalIncome = s.totalIncome + t.amount ∧
      (renderStep s t).totalExpense = s.totalExpense) ∧
    (∀ (s : Totals) (t : Tx), t.type = TxType.expense →
      (renderStep s t).balance = s.balance - t.amount ∧
      (renderStep s t).totalExpense = s.totalExpense + t.amount ∧
      (renderStep s t).totalIncome = s.totalIncome) := by
  refine ⟨?_, ?_, ?_, ?_⟩
  · intro opening txs
    rw [renderAccumulate, renderAccumulate_foldl]
    simp
  · intro env opening txs
    rw [generateBasicCSV]
    exact basicRows_balance env txs opening
  · intro s t h
    simp [renderStep, h]
  · intro s t h
    simp [renderStep, h, Int.sub_eq_add_neg]

/-- Witness for C1 at concrete inputs: an income of 3 on balance 5 gives
8; an expense of 3 on balance 5 gives 2. -/
theorem balance_accumulator_invariant_witness :
    (renderStep ⟨5, 0, 0⟩ ⟨"2024-01-05", TxType.income, "a", "b", 3, none, none, ""⟩).balance = 8 ∧
    (renderStep ⟨5, 0, 0⟩ ⟨"2024-01-05", TxType.expense, "a", "b", 3, none, none, ""⟩).balance = 2 := by
  constructor
  · have h := (balance_accumulator_invariant.2.2.1 ⟨5, 0, 0⟩
      ⟨"2024-01-05", TxType.income, "a", "b", 3, none, none, ""⟩ rfl).1
    rw [h]; decide
  · have h := (balance_accumulator_invariant.2.2.2 ⟨5, 0, 0⟩
      ⟨"2024-01-05", TxType.expense, "a", "b", 3, none, none, ""⟩ rfl).1
    rw [h]; decide

/-- C2 counterexample: with opening balance 5000 and an empty filter
result, `renderTransactions` displays a final balance of 0, not the
opening balance. -/
theorem render_empty_counterexample :
    filterEngine noFilter ([] : List Tx) = [] ∧
    (renderTransactionsResult noFilter 5000 []).balance = 0 ∧
    (renderTransactionsResult noFilter 5000 []).balance ≠ 5000 := by
  refine ⟨rfl, rfl, by decide⟩

/-- C2 (amended): when the Filter Engine produces an empty result set,
the pipeline yields `totalIncome = 0`, `totalExpense = 0`, and a
displayed final balance of 0 — the opening balance is not propagated
(the claim's `finalBalance = openingBalance` holds only when the opening
balance is 0). -/
theorem render_empty_result (fs : FilterSpec) (opening : Int) (txs : List Tx)
    (h : filterEngine fs txs = []) :
    renderTransactionsResult fs opening txs = ⟨0, 0, 0⟩ := by
  unfold renderTransactionsResult
  simp [h, updateTotals, sumIncome, sumExpense]

/-- Witness for C2 (amended) at a concrete input. -/
theorem render_empty_result_witness :
    renderTransactionsResult noFilter 5000 [] = ⟨0, 0, 0⟩ :=
  render_empty_result noFilter 5000 [] rfl

/-- C4: evaluation at the failing input. The basic dialect's inline tax
table (`generateBasicCSV`) is keyed `tax10`/`tax8`/`nontax`/`taxfree`/
`notaxable` and falls back to the empty string, so the canonical stored
code `taxable-10` — the vocabulary used by `getTaxLabel` and the three
dialect tables — produces an empty tax column instead of the claimed 10%
label; the `mf`/`freee`/`yayoi` tables behave as claimed. -/
theorem basic_tax_table_bug :
    basicTaxLabel "taxable-10" = "" ∧
    basicTaxLabel "taxable-8" = "" ∧
    basicTaxLabel "" = "" ∧
    basicTaxLabel "unknown" = "" ∧
    ("" : String) ≠ "課税10%" ∧
    getTaxLabel "taxable-10" = "課税10%" ∧
    getMFTaxCode "taxable-10" = "課税売上10%" ∧
    getMFTaxCode "" = "課税売上10%" ∧
    getFreeeTaxCode "taxable-8" = "軽減税率8%" ∧
    getFreeeTaxCode "bogus" = "課税売上10%" ∧
    getYayoiTaxCode "out-of-scope" = "対象外" ∧
    getYayoiTaxCode "" = "課売10%" := by
  refine ⟨rfl, rfl, rfl, rfl, by decide, rfl, rfl, rfl, rfl, rfl, rfl, rfl⟩

/-- C6: the basic-dialect CSV row attributes the amount to exactly one of
the income and expense columns — income rows leave the expense column
blank and vice versa, never both filled — and the two columns appear as
consecutive fields of `basicRow`. -/
theorem basic_csv_mutual_exclusivity (env : NameEnv) (t : Tx) (b : Int) :
    (t.type = TxType.income → incomeField t = toString t.amount ∧ expenseField t = "") ∧
    (t.type = TxType.expense → expenseField t = toString t.amount ∧ incomeField t = "") ∧
    (incomeField t = "" ∨ expenseField t = "") ∧
    occursIn ("," ++ incomeField t ++ "," ++ expenseField t ++ ",") (basicRow env t b) := by
  refine ⟨?_, ?_, ?_, ?_⟩
  · intro h; simp [incomeField, expenseField, h]
  · intro h; simp [incomeField, expenseField, h]
  · cases h : t.type
    · right; simp [expenseField, h]
    · left; simp [incomeField, h]
  · refine ⟨(t.date ++ "," ++ quoteWrap (typeLabel t) ++ "," ++
      quoteWrap (escQuotes t.description) ++ "," ++ quoteWrap (escQuotes t.client) ++ "," ++
      quoteWrap (env.subjectName t) ++ "," ++ quoteWrap (env.subAccountName t)).data,
      (toString b ++ "," ++ quoteWrap (basicTaxLabel t.taxType) ++ "\n").data, ?_⟩
    simp [basicRow, List.append_assoc]

/-- Witness for C6 at a concrete income transaction. -/
theorem basic_csv_mutual_exclusivity_witness :
    incomeField ⟨"2024-01-05", TxType.income, "d", "c", 100, none, none, ""⟩ = "100" ∧
    expenseField ⟨"2024-01-05", TxType.income, "d", "c", 100, none, none, ""⟩ = "" := by
  have h := (basic_csv_mutual_exclusivity ⟨fun _ => "", fun _ => ""⟩
    ⟨"2024-01-05", TxType.income, "d", "c", 100, none, none, ""⟩ 0).1 rfl
  exact ⟨h.1.trans (by decide), h.2⟩

/-- C7: `exportToCSV` produces no payload exactly when the
period-filtered sequence is empty (the "no data" alert path — not a
header-only file), and produces a payload whenever it is non-empty. -/
theorem export_no_data (env : NameEnv) (plan : String) (fmt : Option String)
    (opening : Int) (sm em : String) (txs : List Tx) :
    (exportToCSV env plan fmt opening sm em txs = none ↔ monthFilter sm em txs = []) ∧
    (exportToCSV env plan fmt opening sm em txs).isSome = !(monthFilter sm em txs).isEmpty := by
  unfold exportToCSV
  cases h : (monthFilter sm em txs).isEmpty <;>
    simp_all [List.isEmpty_iff]

/-- C8: coupon validation succeeds exactly when some stored coupon with
the requested code is active, inside its validity window (when bounds are
set), strictly under its redemption cap (when set), and matching the
requested plan (when restricted); in particular a coupon with
`max_redemptions = 1` and redemption count 1 never matches. -/
theorem coupon_validation_iff :
    (∀ (s : CouponState) (code plan : String) (now : Nat),
      ((validateHandler s code plan now).1.isSome = true ↔
        ∃ c ∈ s.coupons, c.code = code ∧ couponUsable c plan now)) ∧
    (∀ (c : Coupon) (code plan : String) (now : Nat),
      c.max_redemptions = some 1 → c.redemption_count = 1 →
      couponMatches c code plan now = false) := by
  constructor
  · intro s code plan now
    show (s.coupons.find? fun c => couponMatches c code plan now).isSome = true ↔ _
    rw [List.find?_isSome]
    constructor
    · rintro ⟨c, hc, hm⟩
      exact ⟨c, hc, (couponMatches_iff c code plan now).mp hm⟩
    · rintro ⟨c, hc, hm⟩
      exact ⟨c, hc, (couponMatches_iff c code plan now).mpr hm⟩
  · intro c code plan now h1 h2
    unfold couponMatches
    simp [h1, h2]

/-- Witness for C8: scenario F at a concrete coupon with
`max_redemptions = 1` already redeemed once. -/
theorem coupon_validation_iff_witness :
    couponMatches ⟨"ONCE", true, none, none, some 1, 1, none, "", 0⟩ "ONCE" "basic" 0 = false :=
  coupon_validation_iff.2 ⟨"ONCE", true, none, none, some 1, 1, none, "", 0⟩ "ONCE" "basic" 0 rfl rfl

/-- C9: `generateToken` embeds the userId with `exp` set 30 days
(2,592,000 seconds) after issuance; `verifyToken` returns the embedded
userId for a well-formed payload exactly when `exp` has not passed,
returns `null` for expired or malformed tokens, and accepts any
well-formed unexpired payload regardless of origin (no signature
check). -/
theorem token_encode_verify :
    (∀ uid now, (generateToken uid now).userId = uid ∧
      (generateToken uid now).exp = now + 60 * 60 * 24 * 30) ∧
    (∀ (p : TokenPayload) (now : Nat),
      verifyToken (some p) now = some p.userId ↔ now ≤ p.exp) ∧
    (∀ (p : TokenPayload) (now : Nat), p.exp < now → verifyToken (some p) now = none) ∧
    (∀ now, verifyToken none now = none) ∧
    (∀ uid e now, now ≤ e → verifyToken (some ⟨uid, e⟩) now = some uid) := by
  refine ⟨fun uid now => ⟨rfl, rfl⟩, ?_, ?_, fun now => rfl, ?_⟩
  · intro p now
    by_cases h : p.exp < now
    · simp [verifyToken, h]
    · simp [verifyToken, h]
      omega
  · intro p now h
    simp [verifyToken, h]
  · intro uid e now h
    simp [verifyToken, Nat.not_lt.mpr h]

/-- Witness for C9: a token issued at time 1000 verifies at time 1000,
and an expired payload is rejected. -/
theorem token_encode_verify_witness :
    verifyToken (some (generateToken 7 1000)) 1000 = some 7 ∧
    verifyToken (some ⟨9, 50⟩) 100 = none :=
  ⟨token_encode_verify.2.2.2.2 7 (1000 + 60 * 60 * 24 * 30) 1000 (by decide),
   token_encode_verify.2.2.1 ⟨9, 50⟩ 100 (by decide)⟩

theorem validateRepeat_eq_replicate (s : CouponState) (code plan : String) (now : Nat) :
    ∀ k, validateRepeat s code plan now k =
      List.replicate k (validateHandler s code plan now).1 := by
  intro k
  induction k with
  | zero => rfl
  | succ n ih => simp [validateRepeat, validateHandler, List.replicate_succ, ih]

/-- C10: coupon validation is read-only — the handler returns the stored
state unchanged (no redemption recorded, no count incremented), so `k`
repeated validations all return the very same result, and all succeed
whenever one does. -/
theorem coupon_validate_readonly :
    (∀ (s : CouponState) (code plan : String) (now : Nat),
      (validateHandler s code plan now).2 = s ∧
      (validateHandler s code plan now).2.coupons = s.coupons ∧
      (validateHandler s code plan now).2.redemptions = s.redemptions) ∧
    (∀ (s : CouponState) (code plan : String) (now : Nat) (k : Nat),
      validateRepeat s code plan now k =
        List.replicate k (validateHandler s code plan now).1) ∧
    (∀ (s : CouponState) (code plan : String) (now : Nat) (k : Nat) (r : Option Coupon),
      (validateHandler s code plan now).1.isSome = true →
      r ∈ validateRepeat s code plan now k → r.isSome = true) := by
  refine ⟨fun s code plan now => ⟨rfl, rfl, rfl⟩, validateRepeat_eq_replicate, ?_⟩
  intro s code plan now k r hs hr
  rw [validateRepeat_eq_replicate] at hr
  rw [List.eq_of_mem_replicate hr]
  exact hs

/-- Witness for C10: two successive validations of an unrestricted active
coupon both succeed. -/
theorem coupon_validate_readonly_witness :
    (some (⟨"SAVE", true, none, none, none, 0, none, "", 0⟩ : Coupon)).isSome = true :=
  coupon_validate_readonly.2.2 ⟨[⟨"SAVE", true, none, none, none, 0, none, "", 0⟩], []⟩
    "SAVE" "basic" 0 2 (some ⟨"SAVE", true, none, none, none, 0, none, "", 0⟩)
    (by decide) (by decide)

theorem escQuotesList_no_quote {l : List Char} (h : '"' ∉ l) : escQuotesList l = l := by
  induction l with
  | nil => rfl
  | cons c cs ih =>
    have hc : c ≠ '"' := fun hh => h (hh ▸ List.mem_cons_self c cs)
    have hcs : '"' ∉ cs := fun hh => h (List.mem_cons_of_mem c hh)
    simp [escQuotesList, hc, ih hcs]

theorem escQuotesList_append_quote {l₁ : List Char} (l₂ : List Char) (h : '"' ∉ l₁) :
    escQuotesList (l₁ ++ '"' :: l₂) = l₁ ++ '"' :: '"' :: escQuotesList l₂ := by
  induction l₁ with
  | nil => simp [escQuotesList]
  | cons c cs ih =>
    have hc : c ≠ '"' := fun hh => h (hh ▸ List.mem_cons_self c cs)
    have hcs : '"' ∉ cs := fun hh => h (List.mem_cons_of_mem c hh)
    simp [escQuotesList, hc, ih hcs]

theorem escQuotes_no_quote (s : String) (h : '"' ∉ s.data) : escQuotes s = s := by
  unfold escQuotes
  rw [escQuotesList_no_quote h]

theorem basicRow_desc_quoted (env : NameEnv) (t : Tx) (b : Int) :
    occursIn (quoteWrap (escQuotes t.description)) (basicRow env t b) := by
  refine ⟨(t.date ++ "," ++ quoteWrap (typeLabel t) ++ ",").data,
    ("," ++ quoteWrap (escQuotes t.client) ++ "," ++ quoteWrap (env.subjectName t) ++ "," ++
      quoteWrap (env.subAccountName t) ++ "," ++ incomeField t ++ "," ++ expenseField t ++
      "," ++ toString b ++ "," ++ quoteWrap (basicTaxLabel t.taxType) ++ "\n").data, ?_⟩
  simp [basicRow, List.append_assoc]

theorem basicRow_client_quoted (env : NameEnv) (t : Tx) (b : Int) :
    occursIn (quoteWrap (escQuotes t.client)) (basicRow env t b) := by
  refine ⟨(t.date ++ "," ++ quoteWrap (typeLabel t) ++ "," ++
      quoteWrap (escQuotes t.description) ++ ",").data,
    ("," ++ quoteWrap (env.subjectName t) ++ "," ++ quoteWrap (env.subAccountName t) ++
      "," ++ incomeField t ++ "," ++ expenseField t ++ "," ++ toString b ++ "," ++
      quoteWrap (basicTaxLabel t.taxType) ++ "\n").data, ?_⟩
  simp [basicRow, List.append_assoc]

theorem mfRow_desc_quoted (t : Tx) (i : Nat) :
    occursIn (quoteWrap (escQuotes t.description)) (mfRow t i) := by
  cases ht : t.type
  · refine ⟨(toString i ++ "," ++ t.date ++ ",現金,,,," ++ toString t.amount ++
        ",,売上高,,,," ++ toString t.amount ++ ",,").data,
      ("," ++ quoteWrap (escQuotes t.client) ++ ",,,,\n").data, ?_⟩
    simp [mfRow, ht, List.append_assoc]
  · refine ⟨(toString i ++ "," ++ t.date ++ ",経費,,,," ++ toString t.amount ++
        ",,現金,,,," ++ toString t.amount ++ ",,").data,
      ("," ++ quoteWrap (escQuotes t.client) ++ ",,,,\n").data, ?_⟩
    simp [mfRow, ht, List.append_assoc]

theorem mfRow_client_quoted (t : Tx) (i : Nat) :
    occursIn (quoteWrap (escQuotes t.client)) (mfRow t i) := by
  cases ht : t.type
  · refine ⟨(toString i ++ "," ++ t.date ++ ",現金,,,," ++ toString t.amount ++
        ",,売上高,,,," ++ toString t.amount ++ ",," ++
        quoteWrap (escQuotes t.description) ++ ",").data, (",,,,\n").data, ?_⟩
    simp [mfRow, ht, List.append_assoc]
  · refine ⟨(toString i ++ "," ++ t.date ++ ",経費,,,," ++ toString t.amount ++
        ",,現金,,,," ++ toString t.amount ++ ",," ++
        quoteWrap (escQuotes t.description) ++ ",").data, (",,,,\n").data, ?_⟩
    simp [mfRow, ht, List.append_assoc]

theorem freeeRow_desc_quoted (t : Tx) :
    occursIn (quoteWrap (escQuotes t.description)) (freeeRow t) := by
  refine ⟨(freeeType t ++ ",," ++ t.date ++ ",," ++ escQuotes t.client ++ "," ++
      freeeAccount t ++ "," ++ getFreeeTaxCode t.taxType ++ "," ++ toString t.amount ++
      ",,").data, (",,,,,,\n").data, ?_⟩
  simp [freeeRow, List.append_assoc]

theorem freeeRow_client_doubled (t : Tx) :
    occursIn (escQuotes t.client) (freeeRow t) := by
  refine ⟨(freeeType t ++ ",," ++ t.date ++ ",,").data,
    ("," ++ freeeAccount t ++ "," ++ getFreeeTaxCode t.taxType ++ "," ++
      toString t.amount ++ ",," ++ quoteWrap (escQuotes t.description) ++
      ",,,,,,\n").data, ?_⟩
  simp [freeeRow, List.append_assoc]

theorem yayoiRow_desc_quoted (t : Tx) (i : Nat) :
    occursIn (quoteWrap (escQuotes t.description)) (yayoiRow t i) := by
  cases ht : t.type
  · refine ⟨(toString i ++ ",," ++ t.date ++ ",現金,,," ++ getYayoiTaxCode t.taxType ++
        "," ++ toString t.amount ++ ",,売上高,,," ++ getYayoiTaxCode t.taxType ++ "," ++
        toString t.amount ++ ",,").data, (",,,,,,,,\n").data, ?_⟩
    simp [yayoiRow, ht, List.append_assoc]
  · refine ⟨(toString i ++ ",," ++ t.date ++ ",経費,,," ++ getYayoiTaxCode t.taxType ++
        "," ++ toString t.amount ++ ",,現金,,," ++ getYayoiTaxCode t.taxType ++ "," ++
        toString t.amount ++ ",,").data, (",,,,,,,,\n").data, ?_⟩
    simp [yayoiRow, ht, List.append_assoc]

theorem generateBasicCSV_head (env : NameEnv) (opening : Int) (txs : List Tx) :
    (generateBasicCSV env opening txs).1.data.head? = some '取' := by
  show (basicHeader ++ (basicRows env opening txs).1).data.head? = some '取'
  rw [String.data_append]
  exact head?_append_of_head? _ (by decide)

theorem generateMFCloudCSV_head (txs : List Tx) :
    (generateMFCloudCSV txs).data.head? = some '取' := by
  unfold generateMFCloudCSV
  rw [String.data_append]
  exact head?_append_of_head? _ (by decide)

theorem generateFreeeCSV_head (txs : List Tx) :
    (generateFreeeCSV txs).data.head? = some '収' := by
  unfold generateFreeeCSV
  rw [String.data_append]
  exact head?_append_of_head? _ (by decide)

theorem generateYayoiCSV_head (txs : List Tx) :
    (generateYayoiCSV txs).data.head? = some '伝' := by
  unfold generateYayoiCSV
  rw [String.data_append]
  exact head?_append_of_head? _ (by decide)

/-- C5 counterexample: at a concrete transaction with client `a"b`, the
freee row never contains the quoted escaped client (it is interpolated
without surrounding quotes), and the monthly-closing email path produces
a CSV payload that does not start with the byte-order mark. -/
theorem csv_quoting_counterexample :
    ¬ occursIn (quoteWrap (escQuotes "a\"b"))
      (freeeRow ⟨"2024-01-05", TxType.income, "memo", "a\"b", 100, none, none, ""⟩) ∧
    (∃ payload,
      monthlyClosingCSV ⟨fun _ => "", fun _ => ""⟩ 0 none "2024-01" "2024-01"
        [⟨"2024-01-05", TxType.income, "memo", "a\"b", 100, none, none, ""⟩] = some payload ∧
      payload.data.head? ≠ some '\uFEFF') := by
  constructor
  · intro h
    rw [occursIn_iff_hasSub] at h
    have hfalse : hasSub (quoteWrap (escQuotes "a\"b")).data
        (freeeRow ⟨"2024-01-05", TxType.income, "memo", "a\"b", 100, none, none, ""⟩).data
          = false := by decide
    rw [hfalse] at h
    cases h
  · refine ⟨generateMFCloudCSV
      [⟨"2024-01-05", TxType.income, "memo", "a\"b", 100, none, none, ""⟩], by decide, by decide⟩

/-- C5 (amended): in every dialect each embedded description is
quote-doubled and emitted inside quotes; the counterparty likewise in the
basic and mf dialects; in the freee dialect the counterparty is
quote-doubled but emitted without surrounding quotes, and the yayoi
dialect does not embed the counterparty at all. `escQuotes` doubles every
embedded double-quote and leaves quote-free text unchanged. The
`exportToCSV` download payload begins with the byte-order mark, but the
`sendMonthlyClosing` email payload does not. -/
theorem csv_quoting_and_bom :
    (∀ (env : NameEnv) (t : Tx) (b : Int),
      occursIn (quoteWrap (escQuotes t.description)) (basicRow env t b) ∧
      occursIn (quoteWrap (escQuotes t.client)) (basicRow env t b)) ∧
    (∀ (t : Tx) (i : Nat),
      occursIn (quoteWrap (escQuotes t.description)) (mfRow t i) ∧
      occursIn (quoteWrap (escQuotes t.client)) (mfRow t i)) ∧
    (∀ t : Tx,
      occursIn (quoteWrap (escQuotes t.description)) (freeeRow t) ∧
      occursIn (escQuotes t.client) (freeeRow t)) ∧
    (∀ (t : Tx) (i : Nat), occursIn (quoteWrap (escQuotes t.description)) (yayoiRow t i)) ∧
    (∀ (l₁ l₂ : List Char), '"' ∉ l₁ →
      escQuotesList (l₁ ++ '"' :: l₂) = l₁ ++ '"' :: '"' :: escQuotesList l₂) ∧
    (∀ s : String, '"' ∉ s.data → escQuotes s = s) ∧
    (∀ (env : NameEnv) (plan : String) (fmt : Option String) (opening : Int)
        (sm em : String) (txs : List Tx) (payload : String),
      exportToCSV env plan fmt opening sm em txs = some payload →
      ∃ rest, payload = "\uFEFF" ++ rest) ∧
    (∀ (env : NameEnv) (opening : Int) (fmt : Option String) (sm em : String)
        (txs : List Tx) (payload : String),
      monthlyClosingCSV env opening fmt sm em txs = some payload →
      payload.data.head? ≠ some '\uFEFF') := by
  refine ⟨fun env t b => ⟨basicRow_desc_quoted env t b, basicRow_client_quoted env t b⟩,
    fun t i => ⟨mfRow_desc_quoted t i, mfRow_client_quoted t i⟩,
    fun t => ⟨freeeRow_desc_quoted t, freeeRow_client_doubled t⟩,
    fun t i => yayoiRow_desc_quoted t i,
    fun l₁ l₂ h => escQuotesList_append_quote l₂ h,
    escQuotes_no_quote, ?_, ?_⟩
  · intro env plan fmt opening sm em txs payload h
    unfold exportToCSV at h
    by_cases he : (monthFilter sm em txs).isEmpty
    · simp [he] at h
    · simp only [he, Bool.false_eq_true, if_false, Option.some.injEq] at h
      exact ⟨_, h.symm⟩
  · intro env opening fmt sm em txs payload h
    unfold monthlyClosingCSV at h
    by_cases he : (monthFilter sm em txs).isEmpty
    · simp [he] at h
    · simp only [he, Bool.false_eq_true, if_false, Option.some.injEq] at h
      rw [← h]
      split
      · rw [generateMFCloudCSV_head]; decide
      · split
        · rw [generateFreeeCSV_head]; decide
        · split
          · rw [generateYayoiCSV_head]; decide
          · rw [generateBasicCSV_head]; decide

/-- Witness for C5 (amended): the quote-doubling equation at a concrete
quote-free prefix. -/
theorem csv_quoting_and_bom_witness :
    escQuotesList (['a'] ++ '"' :: ['b']) = ['a'] ++ '"' :: '"' :: escQuotesList ['b'] :=
  csv_quoting_and_bom.2.2.2.2.1 ['a'] ['b'] (by decide)

end Zenibo
